import Mathlib

/-!
Verification of the dataset-preparation and training-dispatch pipeline of
the happy-transformer repository (`happytransformer/happy_transformer.py`
and `happytransformer/happy_generation.py`), via a shallow embedding.

Modelling conventions:
* Python exceptions become an explicit `PyError` error type; a function that
  can raise returns `Except PyError α`.
* Side effects (dataset loads, disk cache reads/writes, log warnings, info
  messages, moving the model between devices, launching the trainer) are
  recorded in an event trace `List Event`, returned alongside the result.
* The external `datasets` library calls are modelled as follows:
  `load_dataset(fmt, data_files=...)` reads the named files from an ambient
  environment `Env.readFile`; `load_from_disk(p)` returns `Env.diskCache p`;
  `Dataset.shuffle(seed=s)` is a deterministic permutation computed from `s`
  (modelled with a seeded Fisher-Yates shuffle); `Dataset.train_test_split`
  is called by the source WITHOUT a seed or generator, so the library draws a
  fresh `numpy` default generator: the permutation that generator produces is
  supplied by the environment as `Env.splitGen n` (one permutation per dataset
  length `n`), and the split takes `ceil(test_size * n)` permuted rows as the
  test partition, mirroring the scikit-learn style policy of the library.
* The positional-argument arity check Python applies at a method call is modelled by
  `TokFunction.paramCount`: the base class always passes three arguments
  (dataset, args, file format) and the call raises `TypeError` when the
  override declares a different number of parameters.
-/

instance {ε α : Type} [DecidableEq ε] [DecidableEq α] : DecidableEq (Except ε α) := fun a b =>
  match a, b with
  | .ok x, .ok y =>
    if h : x = y then .isTrue (by rw [h]) else .isFalse (by intro hh; cases hh; exact h rfl)
  | .error x, .error y =>
    if h : x = y then .isTrue (by rw [h]) else .isFalse (by intro hh; cases hh; exact h rfl)
  | .ok _, .error _ => .isFalse (by intro hh; cases hh)
  | .error _, .ok _ => .isFalse (by intro hh; cases hh)

/-- Python exception values relevant to this pipeline. -/
inductive PyError where
  | valueError (msg : String)
  | keyError (key : String)
  | typeError (msg : String)
  deriving DecidableEq, Repr

/-- Observable side effects of the pipeline, in execution order. -/
inductive Event where
  /-- `load_dataset(format, data_files=...)` reading one raw file. -/
  | loadData (format : String) (path : String)
  /-- `load_from_disk(path)` on the preprocessed cache. -/
  | loadFromDisk (path : String)
  /-- `DatasetDict.save_to_disk(path)`. -/
  | saveToDisk (path : String)
  /-- `logger.warning(msg)` (non-fatal). -/
  | warn (msg : String)
  /-- `logger.info(msg)`. -/
  | logInfo (msg : String)
  /-- `self.model.to(device)`. -/
  | moveModel (device : String)
  /-- `os.environ["WANDB_PROJECT"] = value`. -/
  | setEnvVar (key : String) (value : String)
  /-- `trainer.train()`. -/
  | trainerRun
  deriving DecidableEq, Repr

/-- The fields of `TrainArgs` (happytransformer/args.py, not in scope) that
`happy_transformer.py` reads.  Floating-point hyperparameters are modelled as
rationals. -/
structure TrainArgs where
  eval_ratio : Rat
  fp16 : Bool
  load_preprocessed_data : Bool
  load_preprocessed_data_path : String
  save_preprocessed_data : Bool
  save_preprocessed_data_path : String
  deepspeed : String
  output_dir : String
  learning_rate : Rat
  weight_decay : Rat
  adam_beta1 : Rat
  adam_beta2 : Rat
  adam_epsilon : Rat
  max_grad_norm : Rat
  num_train_epochs : Rat
  report_to : List String
  save_steps : Int
  eval_steps : Int
  logging_steps : Int
  batch_size : Int
  gas : Int
  run_name : String
  project_name : String
  deriving DecidableEq, Repr

/-- Ambient world the pipeline runs in: raw file contents, the on-disk
preprocessed cache, and the permutation a fresh (unseeded) `numpy` generator
would produce for each dataset length. -/
structure Env where
  readFile : String → List String
  diskCache : String → List String × List String
  diskDataset : String → List String
  splitGen : Nat → List Nat

/-! ### File-type resolver (`HappyTransformer._check_file_type`) -/

/-- Characters of the final path component (text after the last `/`). -/
def basenameChars (p : List Char) : List Char :=
  p.foldl (fun acc c => if c == '/' then [] else acc ++ [c]) []

/-- Split a basename at its LAST dot: returns `(before, fromDotOn)`;
`none` when the basename has no dot. -/
def splitAtLastDot : List Char → Option (List Char × List Char)
  | [] => none
  | c :: rest =>
    match splitAtLastDot rest with
    | some (pre, ext) => some (c :: pre, ext)
    | none => if c == '.' then some ([], c :: rest) else none

/-- Model of `os.path.splitext(p)[1]`: the extension, i.e. the suffix from the last dot
of the basename, provided at least one character before that dot (within the
basename) is not itself a dot (so `.bashrc` has no extension). -/
def splitext_ext (p : String) : String :=
  match splitAtLastDot (basenameChars p.toList) with
  | none => ""
  | some (pre, ext) => if pre.any (fun c => c ≠ '.') then String.mk ext else ""

/-- Leading-segment test used by `containsSub`. -/
def startsWithB : List Char → List Char → Bool
  | [], _ => true
  | _ :: _, [] => false
  | a :: as, b :: bs => a == b && startsWithB as bs

/-- Substring containment, the meaning of `needle in hay` for Python strings. -/
def containsSub (hay needle : List Char) : Bool :=
  startsWithB needle hay ||
    (match hay with
     | [] => false
     | _ :: t => containsSub t needle)

/-- Suffix test, the meaning of `s.endswith(suffix)` for Python strings. -/
def endsWithB (s suffix : String) : Bool :=
  startsWithB suffix.toList.reverse s.toList.reverse

/-- The `ending_map` dictionary of `_check_file_type`; `none` models the
`KeyError` a missing key raises on subscript. -/
def ending_map (ext : String) : Option String :=
  if ext = ".txt" then some "text" else if ext = ".csv" then some "csv" else none

/-- Embedding of `HappyTransformer._check_file_type` (happy_transformer.py:307-319).
Here `supported` is the `_t_data_file_type` attribute of the instance (a
string, e.g. `"text"` for `HappyGeneration`; the `in` operator on it is
substring containment).
NOTE (faithful to the source): on an unsupported-for-the-task format the
source evaluates `ValueError(f"Invalid file type for {file_path}.")` as a
bare expression without `raise`, so the check has no effect; only the
dictionary subscript can fail (with `KeyError`). -/
def check_file_type (supported : String) (file_path : String) : Except PyError String :=
  let file_extension := splitext_ext file_path
  match ending_map file_extension with
  | none => .error (.keyError file_extension)
  | some ending =>
    let _dead : Option PyError :=
      if containsSub supported.toList ending.toList then none
      else some (.valueError ("Invalid file type for " ++ file_path ++ "."))
    .ok ending

example : check_file_type "text" "train.txt" = .ok "text" := by decide
example : check_file_type "text" "data.csv" = .ok "csv" := by decide
example : check_file_type "text" "a/b.tar.gz" = .error (.keyError ".gz") := by decide
example : check_file_type "text" ".txt" = .error (.keyError "") := by decide

/-! ### Shuffle and split (the `datasets` calls on lines 140-144) -/

/-- Linear congruential step used to model the deterministic pseudo-random
stream that a fixed seed induces in `Dataset.shuffle(seed=...)`. -/
def lcg (s : Nat) : Nat := (s * 1103515245 + 12345) % 2147483648

/-- Remove the element at index `i`, returning it with the remainder. -/
def pickOut {α : Type} : List α → Nat → Option (α × List α)
  | [], _ => none
  | x :: xs, 0 => some (x, xs)
  | x :: xs, n + 1 => (pickOut xs n).map (fun p => (p.1, x :: p.2))

/-- Fisher-Yates driven by `lcg`, with fuel for structural termination. -/
def shuffleGo {α : Type} : Nat → Nat → List α → List α
  | 0, _, l => l
  | _, _, [] => []
  | fuel + 1, s, l =>
    let s1 := lcg s
    match pickOut l (s1 % l.length) with
    | none => l
    | some (x, rest) => x :: shuffleGo fuel s1 rest

/-- Model of `Dataset.shuffle(seed=seed)`: a deterministic permutation of the rows,
a function of the seed (and the rows) only. -/
def shuffleSeed {α : Type} (seed : Nat) (l : List α) : List α :=
  shuffleGo l.length seed l

/-- Reorder `l` by a permutation given as a list of indices. -/
def applyPerm {α : Type} (perm : List Nat) (l : List α) : List α :=
  perm.filterMap (fun i => l.get? i)

/-- Ceiling of `q * n` as a natural number (0 when `q ≤ 0`); the rounding policy
the underlying split implementation applies to a fractional `test_size`. -/
def ceilMulNat (q : Rat) (n : Nat) : Nat :=
  if q.num ≤ 0 then 0 else (q.num.toNat * n + (q.den - 1)) / q.den

/-- Model of `Dataset.train_test_split(test_size=testSize)` as called by the source:
no seed and no generator are passed, so the library shuffles with a FRESH
unseeded generator; `perm` is the permutation that generator produced.  The
test partition takes the first `ceil(testSize * n)` permuted rows, the train
partition the rest.  Returns `(train, test)`. -/
def train_test_split {α : Type} (perm : List Nat) (testSize : Rat) (l : List α) :
    List α × List α :=
  let nTest := ceilMulNat testSize l.length
  let permuted := applyPerm perm l
  (permuted.drop nTest, permuted.take nTest)

example : ceilMulNat (mkRat 1 2) 3 = 2 := by decide
example : shuffleSeed 42 ["a", "b"] = shuffleSeed 42 ["a", "b"] := rfl

/-! ### Tokenization dispatch (`_tok_function` and its call sites) -/

/-- A task encoder as installed by a child class.  The field `paramCount` is the number
of positional parameters the Python definition declares after `self`; the
base class always CALLS it with three positional arguments
(`raw_dataset, args, format`), and Python raises `TypeError` when the counts
differ. -/
structure TokFunction where
  paramCount : Nat
  run : List String → TrainArgs → String → List String

/-- Message standing for the arity-mismatch `TypeError` raised by Python. -/
def tokArityMsg : String := "_tok_function takes 3 positional arguments but 4 were given"

/-- The call `self._tok_function(data, args, format)` made by the base class:
three positional arguments against the declared parameter count of the
override. -/
def callTok (t : TokFunction) (d : List String) (a : TrainArgs) (fmt : String) :
    Except PyError (List String) :=
  if t.paramCount = 3 then .ok (t.run d a fmt) else .error (.typeError tokArityMsg)

/-- Embedding of `HappyGeneration._tok_function` (happy_generation.py:93-95): declared with
only TWO parameters after `self` (`raw_dataset, args`); the body applies
`preprocess_concatenate` (from `fine_tuning_util`, here the parameter `pc`)
to the dataset and the args.  The file format argument the base class passes
has no matching parameter. -/
def gen_tok_function (pc : List String → TrainArgs → List String) : TokFunction :=
  { paramCount := 2, run := fun d a _ => pc d a }

/-- Value of `self._t_data_file_type` as set by `HappyGeneration`
(happy_generation.py:40). -/
def gen_supported : String := "text"

/-! ### Dataset preprocessing (`HappyTransformer._preprocess_data_train`,
`HappyTransformer._preprocess_data_eval`) -/

/-- Error message of happy_transformer.py:166 (the load-branch legacy check). -/
def legacyLoadMsg : String :=
  "As of version 2.5.0 preprocessed files are not longer saved as json files. Please preprocess your data again"

/-- Error message of happy_transformer.py:179 (the save-step legacy check). -/
def legacySaveMsg : String :=
  "As of version 2.5.0 preprocessed files are not longer saved as json files. Please provide a path to a folder."

/-- Error message of happy_transformer.py:155. -/
def mismatchMsg : String := "Train file-type must be the same as the eval file-type"

/-- Embedding of `HappyTransformer._preprocess_data_train` (happy_transformer.py:132-186).
Here `supported` is the `_t_data_file_type` attribute of the instance and
`tok` its `_tok_function`.
Returns the `(train, eval)` tokenized pair (or the exception) together with
the side-effect trace.  Faithful to the source, including:
* line 152 computes `eval_file_type` from `input_filepath` (not
  `eval_filepath`), so the mismatch check on line 154 compares the train
  file type with itself;
* lines 165 and 178 test `args.save_preprocessed_data_path` for the legacy
  `.json` suffix — the LOAD path is never tested. -/
def preprocess_data_train (supported : String) (tok : TokFunction) (env : Env)
    (input_filepath eval_filepath : String) (args : TrainArgs) :
    Except PyError (List String × List String) × List Event :=
  let core : Except PyError (List String × List String) × List Event :=
    if ¬ args.load_preprocessed_data then
      if eval_filepath = "" then
        match check_file_type supported input_filepath with
        | .error e => (.error e, [])
        | .ok file_type =>
          let all_raw_data := env.readFile input_filepath
          let all_raw_data := shuffleSeed 42 all_raw_data
          let split_text_data :=
            train_test_split (env.splitGen all_raw_data.length) args.eval_ratio all_raw_data
          let ev := [Event.loadData file_type input_filepath,
                     Event.logInfo "Tokenizing training data..."]
          match callTok tok split_text_data.1 args file_type with
          | .error e => (.error e, ev)
          | .ok train_tok_data =>
            match callTok tok split_text_data.2 args file_type with
            | .error e => (.error e, ev)
            | .ok eval_tok_data => (.ok (train_tok_data, eval_tok_data), ev)
      else
        match check_file_type supported input_filepath with
        | .error e => (.error e, [])
        | .ok train_file_type =>
          match check_file_type supported input_filepath with
          | .error e => (.error e, [])
          | .ok eval_file_type =>
            if train_file_type ≠ eval_file_type then
              (.error (.valueError mismatchMsg), [])
            else
              let ev := [Event.loadData train_file_type input_filepath,
                         Event.loadData train_file_type eval_filepath,
                         Event.logInfo "Tokenizing training data..."]
              match callTok tok (env.readFile input_filepath) args train_file_type with
              | .error e => (.error e, ev)
              | .ok train_tok_data =>
                let ev2 := ev ++ [Event.logInfo "Tokenizing eval data..."]
                match callTok tok (env.readFile eval_filepath) args train_file_type with
                | .error e => (.error e, ev2)
                | .ok eval_tok_data => (.ok (train_tok_data, eval_tok_data), ev2)
    else
      if endsWithB args.save_preprocessed_data_path ".json" then
        (.error (.valueError legacyLoadMsg), [])
      else
        let warnEv : List Event :=
          if eval_filepath ≠ "" then
            [Event.warn ("Eval data will be fetched from " ++ args.load_preprocessed_data_path
              ++ " and not " ++ eval_filepath)]
          else []
        let tok_data := env.diskCache args.load_preprocessed_data_path
        (.ok tok_data, warnEv ++ [Event.loadFromDisk args.load_preprocessed_data_path])
  match core with
  | (.error e, tr) => (.error e, tr)
  | (.ok pair, tr) =>
    if args.save_preprocessed_data then
      if endsWithB args.save_preprocessed_data_path ".json" then
        (.error (.valueError legacySaveMsg), tr)
      else
        (.ok pair, tr ++ [Event.saveToDisk args.save_preprocessed_data_path])
    else
      (.ok pair, tr)

/-- Embedding of `HappyTransformer._preprocess_data_eval` (happy_transformer.py:189-208). -/
def preprocess_data_eval (supported : String) (tok : TokFunction) (env : Env)
    (input_filepath : String) (args : TrainArgs) :
    Except PyError (List String) × List Event :=
  let core : Except PyError (List String) × List Event :=
    if ¬ args.load_preprocessed_data then
      match check_file_type supported input_filepath with
      | .error e => (.error e, [Event.logInfo "Preprocessing dataset..."])
      | .ok eval_file_type =>
        let ev := [Event.logInfo "Preprocessing dataset...",
                   Event.loadData eval_file_type input_filepath]
        match callTok tok (env.readFile input_filepath) args eval_file_type with
        | .error e => (.error e, ev)
        | .ok tokenized => (.ok tokenized, ev)
    else
      (.ok (env.diskDataset (args.load_preprocessed_data_path ++ "/eval")),
        [Event.logInfo ("Loading dataset from " ++ args.load_preprocessed_data_path ++ "..."),
         Event.loadFromDisk (args.load_preprocessed_data_path ++ "/eval")])
  match core with
  | (.error e, tr) => (.error e, tr)
  | (.ok tokenized, tr) =>
    if args.save_preprocessed_data then
      let warns : List Event :=
        if args.load_preprocessed_data then
          [Event.warn "Both save_preprocessed_data and load_data are enabled."]
        else []
      (.ok tokenized,
        tr ++ warns
           ++ [Event.logInfo ("Saving evaluating dataset to " ++ args.save_preprocessed_data_path ++ "..."),
               Event.saveToDisk args.save_preprocessed_data_path])
    else
      (.ok tokenized, tr)

/-! ### Device selection (`HappyTransformer.to_auto_device`, constructor) -/

/-- Availability flags the `torch` backends report. -/
structure Backends where
  mps_available : Bool
  mps_built : Bool
  cuda_available : Bool
  deriving DecidableEq, Repr

/-- Embedding of `HappyTransformer.to_auto_device` (happy_transformer.py:80-93), the device
string only (the `model.to(device)` move is recorded by `ht_init`).  Faithful
to the source: `device` is first set to `"mps"` when mps is available and
built, and then OVERWRITTEN with `"cuda:0"` whenever cuda is available. -/
def to_auto_device (b : Backends) : String :=
  let device : Option String :=
    if b.mps_available && b.mps_built then some "mps" else none
  let device : Option String :=
    if b.cuda_available then some "cuda:0" else device
  match device with
  | none => "cpu"
  | some d => d

/-- Device-relevant state the constructor leaves behind: the `self.device`
attribute and the device the model was moved to. -/
structure HTState where
  device : String
  modelDevice : String
  deriving DecidableEq, Repr

/-- The constructor steps around device selection (happy_transformer.py:37-39):
`self.device = self.to_auto_device()`, which moves the model, then logs. -/
def ht_init (b : Backends) : HTState × List Event :=
  let d := to_auto_device b
  ({ device := d, modelDevice := d },
   [Event.moveModel d, Event.logInfo ("Using device: " ++ d)])

/-- Modelled from the words of the spec (§6 Device selection) for comparison with
`to_auto_device`: "preferring (in order) a specialized accelerator if
available and built, then a general GPU accelerator, then a CPU fallback". -/
def auto_device_spec_order (b : Backends) : String :=
  if b.mps_available && b.mps_built then "mps"
  else if b.cuda_available then "cuda:0"
  else "cpu"

/-! ### Training-argument construction and dispatch
(`_get_training_args`, `_run_train`, `train`) -/

/-- The lower-level `TrainingArguments` object `_get_training_args` builds.
`seq2seq` records whether the `Seq2SeqTrainingArguments` class was chosen
(`self._type == "tt"`). -/
structure TrainingArguments where
  seq2seq : Bool
  deepspeed : Option String
  output_dir : String
  learning_rate : Rat
  weight_decay : Rat
  adam_beta1 : Rat
  adam_beta2 : Rat
  adam_epsilon : Rat
  max_grad_norm : Rat
  num_train_epochs : Rat
  report_to : List String
  save_strategy : String
  save_steps : Int
  evaluation_strategy : String
  eval_steps : Int
  logging_strategy : String
  logging_steps : Int
  per_device_train_batch_size : Int
  fp16 : Bool
  gradient_accumulation_steps : Int
  use_mps_device : Bool
  run_name : String
  deriving DecidableEq, Repr

/-- Embedding of `HappyTransformer._get_training_args` (happy_transformer.py:212-244).
`deviceType` is `self.device.type`, `selfType` is `self._type`.
NOTE (faithful to the source): on line 215 the expression
`ValueError("fp16 is only available when CUDA/ a GPU is being used. ")` is
evaluated WITHOUT `raise`, so the function never fails; the constructed
exception is discarded (kept here as `_dead`) and the arguments are built
with `fp16` passed through unchanged. -/
def get_training_args (deviceType : String) (selfType : String) (args : TrainArgs) :
    TrainingArguments :=
  let _dead : Option PyError :=
    if deviceType ≠ "cuda" ∧ args.fp16 then
      some (.valueError "fp16 is only available when CUDA/ a GPU is being used. ")
    else none
  { seq2seq := selfType = "tt"
    deepspeed := if args.deepspeed = "" then none else some args.deepspeed
    output_dir := args.output_dir
    learning_rate := args.learning_rate
    weight_decay := args.weight_decay
    adam_beta1 := args.adam_beta1
    adam_beta2 := args.adam_beta2
    adam_epsilon := args.adam_epsilon
    max_grad_norm := args.max_grad_norm
    num_train_epochs := args.num_train_epochs
    report_to := if args.report_to.length = 0 then ["none"] else args.report_to
    save_strategy := if args.save_steps > 0 then "steps" else "no"
    save_steps := args.save_steps
    evaluation_strategy := if args.eval_steps > 0 then "steps" else "no"
    eval_steps := args.eval_steps
    logging_strategy := if args.logging_steps > 0 then "steps" else "no"
    logging_steps := args.logging_steps
    per_device_train_batch_size := args.batch_size
    fp16 := args.fp16
    gradient_accumulation_steps := args.gas
    use_mps_device := deviceType = "mps"
    run_name := args.run_name }

/-- Embedding of `HappyTransformer._run_train` (happy_transformer.py:247-273): builds the
training arguments (which, per the note on `get_training_args`, cannot fail),
exports the WANDB project variable and launches the trainer.  The trainer run
itself is external and modelled as the `trainerRun` event. -/
def run_train (deviceType : String) (selfType : String) (args : TrainArgs) :
    Except PyError Unit × List Event :=
  let _training_args := get_training_args deviceType selfType args
  (.ok (), [Event.setEnvVar "WANDB_PROJECT" args.project_name, Event.trainerRun])

/-- Identity task encoder with the arity the base class expects; used to
exercise the control flow of the pipeline at concrete inputs. -/
def tok3 : TokFunction := { paramCount := 3, run := fun d _ _ => d }

/-- A concrete argument set with raw-data loading and a `1/2` eval ratio. -/
def baseArgs : TrainArgs :=
  { eval_ratio := mkRat 1 2
    fp16 := false
    load_preprocessed_data := false
    load_preprocessed_data_path := "preprocessed"
    save_preprocessed_data := false
    save_preprocessed_data_path := "preprocessed"
    deepspeed := ""
    output_dir := "happy_transformer"
    learning_rate := mkRat 5 100000
    weight_decay := 0
    adam_beta1 := mkRat 9 10
    adam_beta2 := mkRat 999 1000
    adam_epsilon := mkRat 1 100000000
    max_grad_norm := 1
    num_train_epochs := 1
    report_to := []
    save_steps := 0
    eval_steps := 0
    logging_steps := 0
    batch_size := 1
    gas := 1
    run_name := ""
    project_name := "happy-transformer" }

/-- A concrete two-row world whose unseeded split generator happens to be the
identity permutation. -/
def envA : Env :=
  { readFile := fun _ => ["line one", "line two"]
    diskCache := fun _ => (["cached train"], ["cached eval"])
    diskDataset := fun _ => ["cached eval"]
    splitGen := fun n => List.range n }

/-- Error message of happy_transformer.py:100. -/
def evalRatioMsg : String :=
  "Please set TrainArgs.eval_ratio to greater than 0  or supply an eval_path"

/-- Embedding of `HappyTransformer.train` (happy_transformer.py:95-106).  The `type(args)
== dict` legacy check is unrepresentable here (`args` is typed) and never
fires for a `TrainArgs` value, so it is omitted. -/
def train (supported : String) (tok : TokFunction) (env : Env)
    (deviceType : String) (selfType : String)
    (input_filepath : String) (args : TrainArgs) (eval_filepath : String) :
    Except PyError Unit × List Event :=
  if args.eval_ratio ≤ 0 ∧ eval_filepath = "" then
    (.error (.valueError evalRatioMsg), [])
  else
    match preprocess_data_train supported tok env input_filepath eval_filepath args with
    | (.error e, tr) => (.error e, tr)
    | (.ok _, tr) =>
      let (r, tr2) := run_train deviceType selfType args
      (r, tr ++ tr2)


/-! ## Claims -/

/-- C1: the spec claims that when both a train and a non-empty eval path are
supplied (no cache load), the two paths are resolved and a format mismatch
fails with a file-type-mismatch error before any loading.  Evaluating the
embedded code at the failing input `("train.txt", "eval.csv")`: the source
resolves the eval format from `input_filepath` as well (line 152), so no
mismatch is ever detected and both files are loaded — the eval file under the
TRAIN format `"text"` — and the run completes without the mismatch error,
even though the two extensions genuinely differ. -/
theorem C1_no_mismatch_error :
    preprocess_data_train "text" tok3 envA "train.txt" "eval.csv" baseArgs =
      (.ok (["line one", "line two"], ["line one", "line two"]),
       [Event.loadData "text" "train.txt", Event.loadData "text" "eval.csv",
        Event.logInfo "Tokenizing training data...",
        Event.logInfo "Tokenizing eval data..."]) ∧
    splitext_ext "train.txt" ≠ splitext_ext "eval.csv" := by
  decide

/-- C2: the spec claims `fp16=True` on a non-CUDA device fails with a
device-unsupported validation error before any data is loaded.  Evaluating
the embedded code at the failing input (device `"cpu"`, `fp16 := true`): the
source merely evaluates `ValueError(...)` on line 215 without raising it, and
only inside `_get_training_args`, which runs after preprocessing — so the data
is loaded, no error is raised, the trainer runs, and `fp16` is passed through
as `true`. -/
theorem C2_fp16_unraised :
    train "text" tok3 envA "cpu" "gen" "train.txt" { baseArgs with fp16 := true } "" =
      (.ok (), [Event.loadData "text" "train.txt",
                Event.logInfo "Tokenizing training data...",
                Event.setEnvVar "WANDB_PROJECT" "happy-transformer",
                Event.trainerRun]) ∧
    (get_training_args "cpu" "gen" { baseArgs with fp16 := true }).fp16 = true := by
  decide

/-- C4: the spec claims the resolver always fails with an unsupported-file-type
error when the resolved format is not among the formats the calling task
supports.  Evaluating the embedded code at the failing input (`"data.csv"`
against a task supporting only `"text"`): the source evaluates the
`ValueError` on line 317 without raising it, so `"csv"` is returned
successfully even though it is not a supported format; only an unknown
extension fails, and it does so with a `KeyError` from the dictionary
subscript on line 314. -/
theorem C4_task_check_unraised :
    check_file_type "text" "data.csv" = .ok "csv" ∧
    containsSub "text".toList "csv".toList = false ∧
    check_file_type "text" "data.xml" = .error (.keyError ".xml") := by
  decide

/-- C5: for every call to `train` with `args.eval_ratio ≤ 0` and no eval file
path, the call fails with the `InvalidArgument` `ValueError` of line 100 and
the event trace is empty — no dataset file is read, tokenized, or otherwise
touched. -/
theorem C5_eval_ratio_guard (supported : String) (tok : TokFunction) (env : Env)
    (deviceType selfType input_filepath : String) (args : TrainArgs)
    (h : args.eval_ratio ≤ 0) :
    train supported tok env deviceType selfType input_filepath args "" =
      (.error (.valueError evalRatioMsg), []) := by
  unfold train
  simp [h]

/-- Witness for C5 at `eval_ratio = 0`. -/
theorem C5_eval_ratio_guard_witness :
    ({ baseArgs with eval_ratio := 0 } : TrainArgs).eval_ratio ≤ 0 ∧
    train "text" tok3 envA "cpu" "gen" "train.txt" { baseArgs with eval_ratio := 0 } "" =
      (.error (.valueError evalRatioMsg), []) :=
  ⟨by decide,
   C5_eval_ratio_guard "text" tok3 envA "cpu" "gen" "train.txt" _ (by decide)⟩

/-- C7 counterexample: the claim prefers the mps accelerator over cuda, but in
the source the cuda assignment on line 87 overwrites the mps choice of lines
82-84, so with all backends available the code selects `"cuda:0"` while the
claimed order selects `"mps"`. -/
theorem C7_cuda_overrides_mps :
    to_auto_device { mps_available := true, mps_built := true, cuda_available := true } = "cuda:0" ∧
    auto_device_spec_order
      { mps_available := true, mps_built := true, cuda_available := true } = "mps" ∧
    ("cuda:0" : String) ≠ "mps" := by
  decide

/-- C7 (amended): the device is selected automatically at construction time
with the preference order cuda first (when available), then mps (when both
available and built), then cpu; the model is moved to the selected device and
the device is exposed as the `device` attribute. -/
theorem C7_device_order (b : Backends) :
    to_auto_device b =
      (if b.cuda_available then "cuda:0"
       else if b.mps_available && b.mps_built then "mps" else "cpu") ∧
    (ht_init b).1.device = to_auto_device b ∧
    (ht_init b).1.modelDevice = to_auto_device b ∧
    (ht_init b).2 =
      [Event.moveModel (to_auto_device b),
       Event.logInfo ("Using device: " ++ to_auto_device b)] := by
  rcases b with ⟨m, mb, c⟩
  cases m <;> cases mb <;> cases c <;> decide

/-- C8: for every training-argument set, the constructed training
configuration uses the step-based strategy (`"steps"`) for checkpointing,
evaluation and logging exactly when the corresponding `save_steps`,
`eval_steps` or `logging_steps` value is greater than zero, and otherwise
(in particular at zero) disables that axis with strategy `"no"`; the step
counts themselves are passed through unchanged. -/
theorem C8_step_strategies (deviceType selfType : String) (args : TrainArgs) :
    ((get_training_args deviceType selfType args).save_strategy = "steps" ↔
       0 < args.save_steps) ∧
    ((get_training_args deviceType selfType args).save_strategy = "no" ↔
       ¬ 0 < args.save_steps) ∧
    (get_training_args deviceType selfType args).save_steps = args.save_steps ∧
    ((get_training_args deviceType selfType args).evaluation_strategy = "steps" ↔
       0 < args.eval_steps) ∧
    ((get_training_args deviceType selfType args).evaluation_strategy = "no" ↔
       ¬ 0 < args.eval_steps) ∧
    (get_training_args deviceType selfType args).eval_steps = args.eval_steps ∧
    ((get_training_args deviceType selfType args).logging_strategy = "steps" ↔
       0 < args.logging_steps) ∧
    ((get_training_args deviceType selfType args).logging_strategy = "no" ↔
       ¬ 0 < args.logging_steps) ∧
    (get_training_args deviceType selfType args).logging_steps = args.logging_steps := by
  simp only [get_training_args]
  refine ⟨?_, ?_, trivial, ?_, ?_, trivial, ?_, ?_, trivial⟩ <;>
    (split <;> simp_all)

/-- Same world as `envA` except that the fresh unseeded generator of the
train/test split happens to produce the reversed permutation. -/
def envB : Env := { envA with splitGen := fun n => (List.range n).reverse }

/-- C3 counterexample: the single-file shuffle-and-split is NOT deterministic
across runs.  The pre-split shuffle is seeded (42), but the source calls
`train_test_split(test_size=args.eval_ratio)` with no seed, so each run draws
a fresh generator; two runs over the same input file and the same
`eval_ratio` whose fresh generators produce different permutations yield
different train/eval partitions. -/
theorem C3_split_not_deterministic :
    envA.readFile = envB.readFile ∧
    preprocess_data_train "text" tok3 envA "data.txt" "" baseArgs ≠
      preprocess_data_train "text" tok3 envB "data.txt" "" baseArgs := by
  exact ⟨rfl, by decide⟩

/-- C3 (amended): the seeded shuffle is deterministic, and the whole
single-file split is deterministic as a function of the input file and the
permutation drawn by the unseeded split generator: two runs over worlds that
agree on file contents and on that generator output produce identical
train/eval partitions (for any task, encoder, and argument set that loads
raw data). -/
theorem C3_split_deterministic_given_generator (env env' : Env)
    (supported input_filepath : String) (tok : TokFunction) (args : TrainArgs)
    (h1 : env.readFile = env'.readFile) (h2 : env.splitGen = env'.splitGen)
    (h3 : args.load_preprocessed_data = false) :
    preprocess_data_train supported tok env input_filepath "" args =
      preprocess_data_train supported tok env' input_filepath "" args := by
  simp [preprocess_data_train, h1, h2, h3]

/-- Witness for C3 (amended): two worlds that differ in the on-disk cache but
agree on file contents and generator output give identical results. -/
theorem C3_split_deterministic_witness :
    preprocess_data_train "text" tok3 envA "data.txt" "" baseArgs =
      preprocess_data_train "text" tok3
        { envA with diskCache := fun _ => ([], []) } "data.txt" "" baseArgs :=
  C3_split_deterministic_given_generator _ _ "text" "data.txt" tok3 baseArgs rfl rfl rfl

/-- Argument set in the scope of the C6 claim (cache load requested, eval
path supplied) whose save path carries the legacy `.json` suffix. -/
def argsC6cex : TrainArgs :=
  { baseArgs with load_preprocessed_data := true, save_preprocessed_data_path := "old.json" }

/-- C6 counterexample: with cache loading requested AND an explicit eval path
supplied, a `save_preprocessed_data_path` ending in `.json` makes the call
fail with the legacy-format error of line 166 BEFORE the warning of line 170
is emitted and before the cache is loaded — so neither "the eval partition
returned is the one loaded from the cache" nor "a warning is emitted" holds
for this call (the trace is empty). -/
theorem C6_legacy_check_preempts :
    preprocess_data_train "text" tok3 envA "train.txt" "eval.txt" argsC6cex =
      (.error (.valueError legacyLoadMsg), []) := by
  decide

/-- C6 (amended): for every call with cache loading requested, an explicit
eval path supplied, and a `save_preprocessed_data_path` not ending in
`.json`, the returned pair is exactly the cached one (so the eval partition
is the cached eval partition), the precedence warning is emitted, and the
explicit eval path is never read; the trace gains a final save event exactly
when saving is also requested. -/
theorem C6_cache_precedence (supported : String) (tok : TokFunction) (env : Env)
    (input_filepath eval_filepath : String) (args : TrainArgs)
    (hload : args.load_preprocessed_data = true)
    (heval : eval_filepath ≠ "")
    (hjson : endsWithB args.save_preprocessed_data_path ".json" = false) :
    preprocess_data_train supported tok env input_filepath eval_filepath args =
      (.ok (env.diskCache args.load_preprocessed_data_path),
       [Event.warn ("Eval data will be fetched from " ++ args.load_preprocessed_data_path
          ++ " and not " ++ eval_filepath),
        Event.loadFromDisk args.load_preprocessed_data_path]
       ++ (if args.save_preprocessed_data then
             [Event.saveToDisk args.save_preprocessed_data_path] else [])) ∧
    Event.loadData "text" eval_filepath ∉
      (preprocess_data_train supported tok env input_filepath eval_filepath args).2 ∧
    Event.loadData "csv" eval_filepath ∉
      (preprocess_data_train supported tok env input_filepath eval_filepath args).2 := by
  have hmain :
      preprocess_data_train supported tok env input_filepath eval_filepath args =
        (.ok (env.diskCache args.load_preprocessed_data_path),
         [Event.warn ("Eval data will be fetched from " ++ args.load_preprocessed_data_path
            ++ " and not " ++ eval_filepath),
          Event.loadFromDisk args.load_preprocessed_data_path]
         ++ (if args.save_preprocessed_data then
               [Event.saveToDisk args.save_preprocessed_data_path] else [])) := by
    unfold preprocess_data_train
    by_cases hs : args.save_preprocessed_data <;> simp [hload, heval, hjson, hs]
  refine ⟨hmain, ?_, ?_⟩ <;>
    · rw [hmain]
      by_cases hs : args.save_preprocessed_data <;> simp [hs]

/-- Witness for C6 (amended) at a concrete cache directory. -/
theorem C6_cache_precedence_witness :
    preprocess_data_train "text" tok3 envA "train.txt" "eval.txt"
        { baseArgs with load_preprocessed_data := true,
                        load_preprocessed_data_path := "cache_dir" } =
      (.ok (["cached train"], ["cached eval"]),
       [Event.warn "Eval data will be fetched from cache_dir and not eval.txt",
        Event.loadFromDisk "cache_dir"]) ∧
    Event.loadData "text" "eval.txt" ∉
      (preprocess_data_train "text" tok3 envA "train.txt" "eval.txt"
        { baseArgs with load_preprocessed_data := true,
                        load_preprocessed_data_path := "cache_dir" }).2 := by
  have h := C6_cache_precedence "text" tok3 envA "train.txt" "eval.txt"
    { baseArgs with load_preprocessed_data := true,
                    load_preprocessed_data_path := "cache_dir" }
    rfl (by decide) (by decide)
  exact ⟨by rw [h.1]; decide, h.2.1⟩

/-- C9: every `HappyGeneration` train/eval call that reaches tokenization of
raw (non-cached) data fails with a `TypeError`: the base class calls
`self._tok_function(dataset, args, file_type)` with three arguments while
the `HappyGeneration` override declares only two parameters, whatever the
underlying concatenation function `pc` would compute. -/
theorem C9_gen_tok_arity (pc : List String → TrainArgs → List String) (env : Env)
    (input_filepath eval_filepath : String) (args : TrainArgs) (ft : String)
    (hload : args.load_preprocessed_data = false)
    (hft : check_file_type gen_supported input_filepath = .ok ft) :
    (preprocess_data_train gen_supported (gen_tok_function pc) env
        input_filepath eval_filepath args).1 = .error (.typeError tokArityMsg) ∧
    (preprocess_data_eval gen_supported (gen_tok_function pc) env
        input_filepath args).1 = .error (.typeError tokArityMsg) := by
  constructor
  · unfold preprocess_data_train
    by_cases he : eval_filepath = "" <;>
      simp [hload, he, hft, callTok, gen_tok_function]
  · unfold preprocess_data_eval
    simp [hload, hft, callTok, gen_tok_function]

/-- Witness for C9 on a concrete text file with the identity concatenation. -/
theorem C9_gen_tok_arity_witness :
    baseArgs.load_preprocessed_data = false ∧
    check_file_type gen_supported "train.txt" = .ok "text" ∧
    (preprocess_data_train gen_supported (gen_tok_function (fun d _ => d)) envA
        "train.txt" "" baseArgs).1 = .error (.typeError tokArityMsg) ∧
    (preprocess_data_eval gen_supported (gen_tok_function (fun d _ => d)) envA
        "train.txt" baseArgs).1 = .error (.typeError tokArityMsg) :=
  ⟨rfl, by decide,
   (C9_gen_tok_arity (fun d _ => d) envA "train.txt" "" baseArgs "text" rfl (by decide)).1,
   (C9_gen_tok_arity (fun d _ => d) envA "train.txt" "" baseArgs "text" rfl (by decide)).2⟩

/-- C10: in the load-preprocessed-data branch, the legacy `.json` rejection
inspects the SAVE path, not the LOAD path: a load path ending in `.json` is
accepted and handed to the disk loader (first conjuncts), while a save path
ending in `.json` triggers the legacy-format error even when saving was not
requested (last conjunct). -/
theorem C10_legacy_check_wrong_path (supported : String) (tok : TokFunction) (env : Env)
    (input_filepath eval_filepath : String) (args args2 : TrainArgs)
    (h1 : args.load_preprocessed_data = true)
    (h2 : endsWithB args.save_preprocessed_data_path ".json" = false)
    (_h3 : endsWithB args.load_preprocessed_data_path ".json" = true)
    (h4 : args2.load_preprocessed_data = true)
    (_h5 : args2.save_preprocessed_data = false)
    (h6 : endsWithB args2.save_preprocessed_data_path ".json" = true) :
    (preprocess_data_train supported tok env input_filepath eval_filepath args).1 =
      .ok (env.diskCache args.load_preprocessed_data_path) ∧
    Event.loadFromDisk args.load_preprocessed_data_path ∈
      (preprocess_data_train supported tok env input_filepath eval_filepath args).2 ∧
    preprocess_data_train supported tok env input_filepath eval_filepath args2 =
      (.error (.valueError legacyLoadMsg), []) := by
  refine ⟨?_, ?_, ?_⟩
  · unfold preprocess_data_train
    by_cases hs : args.save_preprocessed_data <;>
      by_cases he : eval_filepath = "" <;> simp [h1, h2, hs, he]
  · unfold preprocess_data_train
    by_cases hs : args.save_preprocessed_data <;>
      by_cases he : eval_filepath = "" <;> simp [h1, h2, hs, he]
  · unfold preprocess_data_train
    simp [h4, h6]

/-- Witness for C10: a `.json` load path is accepted; a `.json` save path is
rejected with the legacy error although no save was requested. -/
theorem C10_legacy_check_wrong_path_witness :
    (preprocess_data_train "text" tok3 envA "train.txt" ""
        { baseArgs with load_preprocessed_data := true,
                        load_preprocessed_data_path := "old_cache.json" }).1 =
      .ok (["cached train"], ["cached eval"]) ∧
    preprocess_data_train "text" tok3 envA "train.txt" ""
        { baseArgs with load_preprocessed_data := true,
                        save_preprocessed_data := false,
                        save_preprocessed_data_path := "save_dir.json" } =
      (.error (.valueError legacyLoadMsg), []) := by
  have h := C10_legacy_check_wrong_path "text" tok3 envA "train.txt" ""
    { baseArgs with load_preprocessed_data := true,
                    load_preprocessed_data_path := "old_cache.json" }
    { baseArgs with load_preprocessed_data := true,
                    save_preprocessed_data := false,
                    save_preprocessed_data_path := "save_dir.json" }
    rfl (by decide) (by decide) rfl rfl (by decide)
  exact ⟨by rw [h.1]; rfl, h.2.2⟩
